import Mathlib

/-!
netdetect: classifying network interfaces by VPN / overlay provider.

A shallow embedding of the Go package `netdetect` (files `airvpn.go`, `cjdns.go`,
`ivpn.go`, `mullvad.go`, `protonvpn.go`, `tailscale.go`, `yggdrasil.go`).

* Go strings are embedded as Lean strings (sequences of Unicode scalar values, that
  is, well-formed UTF-8); slices are lists, the nil slice being the empty list.
* A Go result pair `(v, err)` is a Lean pair whose second component is
  `Option GoError`, `none` standing for the nil error.
* The two operating-system calls, `net.Interfaces()` and `(*net.Interface).Addrs()`,
  are read from an explicit `Platform` value.
* The functions of the Go standard library the package calls (`strings.ToLower`,
  `strings.Contains`, `strings.HasPrefix`, `net.IP.To4`, `net.IP.String`,
  `fmt.Errorf`) are embedded along with it.
-/

set_option autoImplicit false

namespace Netdetect

/-! ## Errors -/

/-- Go `error` values: `errorString` is what `errors.New` and a `fmt.Errorf` without
`%w` build (platform errors are represented by it too), `wrapError` is what
`fmt.Errorf` builds for a format with one `%w` verb. -/
inductive GoError where
  | errorString (s : String)
  | wrapError (msg : String) (err : GoError)
  deriving DecidableEq, Repr

/-- The method `Error()` of an error value. -/
def GoError.Error : GoError → String
  | .errorString s => s
  | .wrapError msg _ => msg

/-- The method `Unwrap()` of an error value (`errors.Unwrap`). -/
def GoError.Unwrap : GoError → Option GoError
  | .errorString _ => none
  | .wrapError _ err => some err

/-- `fmt.Errorf(msg)` for a format without verbs. -/
def Errorf (msg : String) : GoError :=
  .errorString msg

/-- `fmt.Errorf(head + "%w", err)` where `head` is the already formatted text that
precedes the `%w` verb. -/
def ErrorfW (head : String) (err : GoError) : GoError :=
  .wrapError (head ++ err.Error) err

/-! ## Package `strings` -/

/-- The ASCII branch of `strings.ToLower`: `c += 'a' - 'A'` for `'A' <= c <= 'Z'`. -/
def asciiLower (c : Char) : Char :=
  if 65 ≤ c.toNat ∧ c.toNat ≤ 90 then Char.ofNat (c.toNat + 32) else c

/-- `strings.ToLower`. A string with no byte `>= utf8.RuneSelf` takes the ASCII
branch; any other string is mapped rune by rune through `unicode.ToLower`, whose case
tables are the parameter `unicodeToLower`. -/
def ToLower (unicodeToLower : Char → Char) (s : String) : String :=
  if s.data.all (fun c => decide (c.toNat < 128)) then String.mk (s.data.map asciiLower)
  else String.mk (s.data.map unicodeToLower)

/-- `strings.HasPrefix(s, pfx)`: `len(s) >= len(pfx) && s[:len(pfx)] == pfx`. -/
def HasPrefix (s pfx : String) : Bool :=
  decide (pfx.data.length ≤ s.data.length) && decide (s.data.take pfx.data.length = pfx.data)

/-- The search of `strings.Index`: the first offset, counted from `i`, at which
`substr` occurs in the rest of the string, or `-1`. -/
def indexFrom (substr : List Char) : List Char → Nat → Int
  | [], i => if substr.isPrefixOf [] then (i : Int) else -1
  | c :: cs, i => if substr.isPrefixOf (c :: cs) then (i : Int) else indexFrom substr cs (i + 1)

/-- `strings.Index(s, substr)`. -/
def Index (s substr : String) : Int :=
  indexFrom substr.data s.data 0

/-- `strings.Contains(s, substr)`: `Index(s, substr) >= 0`. -/
def Contains (s substr : String) : Bool :=
  decide (0 ≤ Index s substr)

/-! ## Package `net`: addresses -/

/-- `net.IP`, a slice of bytes. -/
abbrev IP := List Nat

/-- `net.IPv4len`. -/
def IPv4len : Nat := 4

/-- `net.IPv6len`. -/
def IPv6len : Nat := 16

/-- `isZeros` of package `net`. -/
def isZeros (p : IP) : Bool :=
  p.all (fun b => decide (b = 0))

/-- `net.IP.To4`: the 4-byte form of an address, `none` standing for the nil slice. -/
def IP.To4 (ip : IP) : Option IP :=
  if ip.length = IPv4len then some ip
  else if ip.length = IPv6len ∧ isZeros (ip.take 10) = true ∧ ip.getD 10 0 = 0xff ∧
      ip.getD 11 0 = 0xff then some ((ip.drop 12).take 4)
  else none

/-- The byte `v + '0'`. -/
def digitChar (v : Nat) : Char :=
  Char.ofNat (v + 48)

/-- `ubtoa` of package `net`: the decimal form of a byte. -/
def ubtoa (v : Nat) : List Char :=
  if v < 10 then [digitChar v]
  else if v < 100 then [digitChar (v / 10), digitChar (v % 10)]
  else [digitChar (v / 100), digitChar ((v / 10) % 10), digitChar (v % 10)]

/-- `hexDigit` of package `net`: the table `"0123456789abcdef"`. -/
def hexDigit (v : Nat) : Char :=
  "0123456789abcdef".data.getD v '0'

/-- The loop of `appendHex`: for `j` from `n - 1` down to `0`, the digit of
`i >> (j*4)` when that value is positive. -/
def hexLoop (i : Nat) : Nat → List Char
  | 0 => []
  | j + 1 =>
    let v := i >>> (j * 4)
    (if 0 < v then [hexDigit (v &&& 0xf)] else []) ++ hexLoop i j

/-- `appendHex` of package `net`: the hexadecimal form of a `uint32` without
leading zeros. -/
def appendHex (i : Nat) : List Char :=
  if i = 0 then ['0'] else hexLoop i 8

/-- `hexString` of package `net`: two hexadecimal digits for each byte. -/
def hexString (b : IP) : List Char :=
  b.flatMap (fun tn => [hexDigit (tn >>> 4), hexDigit (tn &&& 0xf)])

/-- The inner loop of the zero-run search in `IP.String`:
`for j < IPv6len && p[j] == 0 && p[j+1] == 0 { j += 2 }`. -/
def zeroRunEnd (p : IP) : Nat → Nat → Nat
  | 0, j => j
  | fuel + 1, j =>
    if j < IPv6len ∧ p.getD j 0 = 0 ∧ p.getD (j + 1) 0 = 0 then zeroRunEnd p fuel (j + 2)
    else j

/-- The outer loop of the zero-run search in `IP.String`, from index `i` with the
current best run `(e0, e1)`. Each round advances `i` by at least two, so eight
rounds cover the sixteen bytes. -/
def longestZeroRun (p : IP) : Nat → Nat → Int → Int → Int × Int
  | 0, _, e0, e1 => (e0, e1)
  | fuel + 1, i, e0, e1 =>
    if i < IPv6len then
      let j := zeroRunEnd p 8 i
      if i < j ∧ e1 - e0 < (j : Int) - (i : Int) then longestZeroRun p fuel (j + 2) i j
      else longestZeroRun p fuel (i + 2) e0 e1
    else (e0, e1)

/-- The printing loop of `IP.String` for a 16-byte address, from index `i`, with
`::` in place of the run `[e0, e1)`. -/
def printGroups (p : IP) (e0 e1 : Int) : Nat → Nat → List Char
  | 0, _ => []
  | fuel + 1, i =>
    if i < IPv6len then
      if (i : Int) = e0 then
        let i1 := e1.toNat
        if IPv6len ≤ i1 then [':', ':']
        else [':', ':'] ++ appendHex ((p.getD i1 0 <<< 8) ||| p.getD (i1 + 1) 0) ++
          printGroups p e0 e1 fuel (i1 + 2)
      else
        (if 0 < i then [':'] else []) ++
          appendHex ((p.getD i 0 <<< 8) ||| p.getD (i + 1) 0) ++ printGroups p e0 e1 fuel (i + 2)
    else []

/-- `net.IP.String`: `"<nil>"` for the empty slice, dotted decimal when the address
has a 4-byte form, `"?"` followed by the bytes in hexadecimal when the length is not
16, and otherwise the IPv6 text form with the longest run of zero groups (of length
at least two) written `::`. -/
def IP.String (ip : IP) : String :=
  if ip.length = 0 then "<nil>"
  else
    match IP.To4 ip with
    | some p4 =>
      String.mk (ubtoa (p4.getD 0 0) ++ ['.'] ++ ubtoa (p4.getD 1 0) ++ ['.'] ++
        ubtoa (p4.getD 2 0) ++ ['.'] ++ ubtoa (p4.getD 3 0))
    | none =>
      if ip.length ≠ IPv6len then String.mk ('?' :: hexString ip)
      else
        let e := longestZeroRun ip 8 0 (-1) (-1)
        let e' : Int × Int := if e.2 - e.1 ≤ 2 then (-1, -1) else e
        String.mk (printGroups ip e'.1 e'.2 8 0)

/-! ## Package `net`: interfaces -/

/-- `net.Interface`. -/
structure Interface where
  Index : Int
  MTU : Int
  Name : String
  HardwareAddr : List Nat
  Flags : Nat
  deriving DecidableEq, Repr

/-- The dynamic values of the interface type `net.Addr` that the address list of an
interface holds: a `*net.IPNet` (address and mask) or a `*net.IPAddr` (address and
zone), the latter standing for every value that fails the type assertion
`addr.(*net.IPNet)`. -/
inductive Addr where
  | IPNet (ip : IP) (mask : List Nat)
  | IPAddr (ip : IP) (zone : String)
  deriving DecidableEq, Repr

/-- What the package reads from outside itself: the result of `net.Interfaces()`, the
result of `(*net.Interface).Addrs()` for each interface, and the case tables behind
`unicode.ToLower`. -/
structure Platform where
  Interfaces : Except GoError (List Interface)
  Addrs : Interface → Except GoError (List Addr)
  unicodeToLower : Char → Char

/-! ## airvpn.go -/

/-- `airVPNIPPrefixes`. -/
def airVPNIPPrefixes : List String := ["10.4.", "10.30."]

/-- `airVPNPatterns`. -/
def airVPNPatterns : List String := ["air", "airvpn", "tun-air", "air-"]

/-- `isAirVPNInterface`; `iface` is the pointer argument, `none` being nil. -/
def isAirVPNInterface (pf : Platform) (iface : Option Interface) : Bool × Option GoError :=
  match iface with
  | none => (false, some (Errorf "nil interface provided"))
  | some ifc =>
    if airVPNPatterns.any (fun pattern =>
        Contains (ToLower pf.unicodeToLower ifc.Name) pattern) then (true, none)
    else
      match pf.Addrs ifc with
      | .error err =>
        (false, some (ErrorfW ("failed to get addresses for interface " ++ ifc.Name ++ ": ") err))
      | .ok addrs =>
        if addrs.any (fun addr =>
            match addr with
            | .IPNet ip _ =>
              if (IP.To4 ip).isSome then
                airVPNIPPrefixes.any (fun pfx => HasPrefix (IP.String ip) pfx)
              else false
            | .IPAddr _ _ => false) then (true, none)
        else (false, none)

/-- The loop of `FindAirVPNInterfaces` over the listed interfaces: an interface is
appended when `isAirVPNInterface` reports it with a nil error, and skipped
(`continue`) when the error is not nil. -/
def airVPNLoop (pf : Platform) : List Interface → List Interface → List Interface
  | [], acc => acc
  | iface :: rest, acc =>
    match isAirVPNInterface pf (some iface) with
    | (_, some _) => airVPNLoop pf rest acc
    | (isAirVPN, none) =>
      if isAirVPN then airVPNLoop pf rest (acc ++ [iface]) else airVPNLoop pf rest acc

/-- `FindAirVPNInterfaces`. -/
def FindAirVPNInterfaces (pf : Platform) : List Interface × Option GoError :=
  match pf.Interfaces with
  | .error err => ([], some (ErrorfW "failed to list network interfaces: " err))
  | .ok allInterfaces => (airVPNLoop pf allInterfaces [], none)

/-! ## cjdns.go -/

/-- `CJDNSIPPrefix`. -/
def CJDNSIPPrefix : String := "fc00:"

/-- `cjdnsPatterns`. -/
def cjdnsPatterns : List String := ["cjdns", "tun-cjdns", "cjd", "hyperboria"]

/-- `isCJDNSInterface`; `iface` is the pointer argument, `none` being nil. -/
def isCJDNSInterface (pf : Platform) (iface : Option Interface) : Bool × Option GoError :=
  match iface with
  | none => (false, some (Errorf "nil interface provided"))
  | some ifc =>
    if cjdnsPatterns.any (fun pattern =>
        Contains (ToLower pf.unicodeToLower ifc.Name) pattern) then (true, none)
    else
      match pf.Addrs ifc with
      | .error err =>
        (false, some (ErrorfW ("failed to get addresses for interface " ++ ifc.Name ++ ": ") err))
      | .ok addrs =>
        if addrs.any (fun addr =>
            match addr with
            | .IPNet ip _ => (IP.To4 ip).isNone && HasPrefix (IP.String ip) CJDNSIPPrefix
            | .IPAddr _ _ => false) then (true, none)
        else (false, none)

/-- The loop of `FindCJDNSInterfaces` over the listed interfaces: an interface is
appended when `isCJDNSInterface` reports it with a nil error, and skipped
(`continue`) when the error is not nil. -/
def cjdnsLoop (pf : Platform) : List Interface → List Interface → List Interface
  | [], acc => acc
  | iface :: rest, acc =>
    match isCJDNSInterface pf (some iface) with
    | (_, some _) => cjdnsLoop pf rest acc
    | (isCJDNS, none) =>
      if isCJDNS then cjdnsLoop pf rest (acc ++ [iface]) else cjdnsLoop pf rest acc

/-- `FindCJDNSInterfaces`. -/
def FindCJDNSInterfaces (pf : Platform) : List Interface × Option GoError :=
  match pf.Interfaces with
  | .error err => ([], some (ErrorfW "failed to list network interfaces: " err))
  | .ok allInterfaces => (cjdnsLoop pf allInterfaces [], none)

/-! ## ivpn.go -/

/-- `IVPNIPPrefix`. -/
def IVPNIPPrefix : String := "172.16."

/-- `ivpnPatterns`. -/
def ivpnPatterns : List String := ["ivpn", "tun-ivpn", "wg-ivpn"]

/-- `isIVPNInterface`; `iface` is the pointer argument, `none` being nil. -/
def isIVPNInterface (pf : Platform) (iface : Option Interface) : Bool × Option GoError :=
  match iface with
  | none => (false, some (Errorf "nil interface provided"))
  | some ifc =>
    if ivpnPatterns.any (fun pattern =>
        Contains (ToLower pf.unicodeToLower ifc.Name) pattern) then (true, none)
    else
      match pf.Addrs ifc with
      | .error err =>
        (false, some (ErrorfW ("failed to get addresses for interface " ++ ifc.Name ++ ": ") err))
      | .ok addrs =>
        if addrs.any (fun addr =>
            match addr with
            | .IPNet ip _ => (IP.To4 ip).isSome && HasPrefix (IP.String ip) IVPNIPPrefix
            | .IPAddr _ _ => false) then (true, none)
        else (false, none)

/-- The loop of `FindIVPNInterfaces` over the listed interfaces: an interface is
appended when `isIVPNInterface` reports it with a nil error, and skipped
(`continue`) when the error is not nil. -/
def ivpnLoop (pf : Platform) : List Interface → List Interface → List Interface
  | [], acc => acc
  | iface :: rest, acc =>
    match isIVPNInterface pf (some iface) with
    | (_, some _) => ivpnLoop pf rest acc
    | (isIVPN, none) =>
      if isIVPN then ivpnLoop pf rest (acc ++ [iface]) else ivpnLoop pf rest acc

/-- `FindIVPNInterfaces`. -/
def FindIVPNInterfaces (pf : Platform) : List Interface × Option GoError :=
  match pf.Interfaces with
  | .error err => ([], some (ErrorfW "failed to list network interfaces: " err))
  | .ok allInterfaces => (ivpnLoop pf allInterfaces [], none)

/-! ## mullvad.go -/

/-- `MullvadIPPrefix`. -/
def MullvadIPPrefix : String := "10.64."

/-- `mullvadPatterns`. -/
def mullvadPatterns : List String := ["mullvad", "wg-mullvad", "mvd-"]

/-- `isMullvadInterface`; `iface` is the pointer argument, `none` being nil. -/
def isMullvadInterface (pf : Platform) (iface : Option Interface) : Bool × Option GoError :=
  match iface with
  | none => (false, some (Errorf "nil interface provided"))
  | some ifc =>
    if mullvadPatterns.any (fun pattern =>
        Contains (ToLower pf.unicodeToLower ifc.Name) pattern) then (true, none)
    else
      match pf.Addrs ifc with
      | .error err =>
        (false, some (ErrorfW ("failed to get addresses for interface " ++ ifc.Name ++ ": ") err))
      | .ok addrs =>
        if addrs.any (fun addr =>
            match addr with
            | .IPNet ip _ => (IP.To4 ip).isSome && HasPrefix (IP.String ip) MullvadIPPrefix
            | .IPAddr _ _ => false) then (true, none)
        else (false, none)

/-- The loop of `FindMullvadInterfaces` over the listed interfaces: an interface is
appended when `isMullvadInterface` reports it with a nil error, and skipped
(`continue`) when the error is not nil. -/
def mullvadLoop (pf : Platform) : List Interface → List Interface → List Interface
  | [], acc => acc
  | iface :: rest, acc =>
    match isMullvadInterface pf (some iface) with
    | (_, some _) => mullvadLoop pf rest acc
    | (isMullvad, none) =>
      if isMullvad then mullvadLoop pf rest (acc ++ [iface]) else mullvadLoop pf rest acc

/-- `FindMullvadInterfaces`. -/
def FindMullvadInterfaces (pf : Platform) : List Interface × Option GoError :=
  match pf.Interfaces with
  | .error err => ([], some (ErrorfW "failed to list network interfaces: " err))
  | .ok allInterfaces => (mullvadLoop pf allInterfaces [], none)

/-! ## protonvpn.go -/

/-- `ProtonVPNIPPrefix`. -/
def ProtonVPNIPPrefix : String := "10.2."

/-- `protonVPNPatterns`. -/
def protonVPNPatterns : List String := ["proton", "pvpn", "protonvpn", "tun-proton"]

/-- `isProtonVPNInterface`; `iface` is the pointer argument, `none` being nil. -/
def isProtonVPNInterface (pf : Platform) (iface : Option Interface) : Bool × Option GoError :=
  match iface with
  | none => (false, some (Errorf "nil interface provided"))
  | some ifc =>
    if protonVPNPatterns.any (fun pattern =>
        Contains (ToLower pf.unicodeToLower ifc.Name) pattern) then (true, none)
    else
      match pf.Addrs ifc with
      | .error err =>
        (false, some (ErrorfW ("failed to get addresses for interface " ++ ifc.Name ++ ": ") err))
      | .ok addrs =>
        if addrs.any (fun addr =>
            match addr with
            | .IPNet ip _ => (IP.To4 ip).isSome && HasPrefix (IP.String ip) ProtonVPNIPPrefix
            | .IPAddr _ _ => false) then (true, none)
        else (false, none)

/-- The loop of `FindProtonVPNInterfaces` over the listed interfaces: an interface is
appended when `isProtonVPNInterface` reports it with a nil error, and skipped
(`continue`) when the error is not nil. -/
def protonVPNLoop (pf : Platform) : List Interface → List Interface → List Interface
  | [], acc => acc
  | iface :: rest, acc =>
    match isProtonVPNInterface pf (some iface) with
    | (_, some _) => protonVPNLoop pf rest acc
    | (isProtonVPN, none) =>
      if isProtonVPN then protonVPNLoop pf rest (acc ++ [iface]) else protonVPNLoop pf rest acc

/-- `FindProtonVPNInterfaces`. -/
def FindProtonVPNInterfaces (pf : Platform) : List Interface × Option GoError :=
  match pf.Interfaces with
  | .error err => ([], some (ErrorfW "failed to list network interfaces: " err))
  | .ok allInterfaces => (protonVPNLoop pf allInterfaces [], none)

/-! ## tailscale.go -/

/-- `TailscaleIPPrefix`. -/
def TailscaleIPPrefix : String := "100."

/-- `tailscalePatterns`. -/
def tailscalePatterns : List String := ["tailscale", "ts", "wg-ts"]

/-- `isTailscaleInterface`; `iface` is the pointer argument, `none` being nil. -/
def isTailscaleInterface (pf : Platform) (iface : Option Interface) : Bool × Option GoError :=
  match iface with
  | none => (false, some (Errorf "nil interface provided"))
  | some ifc =>
    if tailscalePatterns.any (fun pattern =>
        Contains (ToLower pf.unicodeToLower ifc.Name) pattern) then (true, none)
    else
      match pf.Addrs ifc with
      | .error err =>
        (false, some (ErrorfW ("failed to get addresses for interface " ++ ifc.Name ++ ": ") err))
      | .ok addrs =>
        if addrs.any (fun addr =>
            match addr with
            | .IPNet ip _ => (IP.To4 ip).isSome && HasPrefix (IP.String ip) TailscaleIPPrefix
            | .IPAddr _ _ => false) then (true, none)
        else (false, none)

/-- The loop of `FindTailscaleInterfaces` over the listed interfaces: an interface
is appended when `isTailscaleInterface` reports it with a nil error, and skipped
(`continue`) when the error is not nil. -/
def tailscaleLoop (pf : Platform) : List Interface → List Interface → List Interface
  | [], acc => acc
  | iface :: rest, acc =>
    match isTailscaleInterface pf (some iface) with
    | (_, some _) => tailscaleLoop pf rest acc
    | (isTailscale, none) =>
      if isTailscale then tailscaleLoop pf rest (acc ++ [iface]) else tailscaleLoop pf rest acc

/-- `FindTailscaleInterfaces`. -/
def FindTailscaleInterfaces (pf : Platform) : List Interface × Option GoError :=
  match pf.Interfaces with
  | .error err => ([], some (ErrorfW "failed to list network interfaces: " err))
  | .ok allInterfaces => (tailscaleLoop pf allInterfaces [], none)

/-! ## yggdrasil.go -/

/-- `YggdrasilIPPrefix`. -/
def YggdrasilIPPrefix : String := "200:"

/-- `yggdrasilPatterns`. -/
def yggdrasilPatterns : List String := ["ygg", "tun-ygg", "yggdrasil", "ygg0"]

/-- `isYggdrasilInterface`; `iface` is the pointer argument, `none` being nil. -/
def isYggdrasilInterface (pf : Platform) (iface : Option Interface) : Bool × Option GoError :=
  match iface with
  | none => (false, some (Errorf "nil interface provided"))
  | some ifc =>
    if yggdrasilPatterns.any (fun pattern =>
        Contains (ToLower pf.unicodeToLower ifc.Name) pattern) then (true, none)
    else
      match pf.Addrs ifc with
      | .error err =>
        (false, some (ErrorfW ("failed to get addresses for interface " ++ ifc.Name ++ ": ") err))
      | .ok addrs =>
        if addrs.any (fun addr =>
            match addr with
            | .IPNet ip _ => (IP.To4 ip).isNone && HasPrefix (IP.String ip) YggdrasilIPPrefix
            | .IPAddr _ _ => false) then (true, none)
        else (false, none)

/-- The loop of `FindYggdrasilInterfaces` over the listed interfaces: an interface is
appended when `isYggdrasilInterface` reports it with a nil error, and skipped
(`continue`) when the error is not nil. -/
def yggdrasilLoop (pf : Platform) : List Interface → List Interface → List Interface
  | [], acc => acc
  | iface :: rest, acc =>
    match isYggdrasilInterface pf (some iface) with
    | (_, some _) => yggdrasilLoop pf rest acc
    | (isYggdrasil, none) =>
      if isYggdrasil then yggdrasilLoop pf rest (acc ++ [iface]) else yggdrasilLoop pf rest acc

/-- `FindYggdrasilInterfaces`. -/
def FindYggdrasilInterfaces (pf : Platform) : List Interface × Option GoError :=
  match pf.Interfaces with
  | .error err => ([], some (ErrorfW "failed to list network interfaces: " err))
  | .ok allInterfaces => (yggdrasilLoop pf allInterfaces [], none)

/-! ## The seven providers -/

/-- The providers the package knows, one per source file. -/
inductive Provider where
  | AirVPN | CJDNS | IVPN | Mullvad | ProtonVPN | Tailscale | Yggdrasil
  deriving DecidableEq, Repr

/-- The interface-name patterns of a provider. -/
def Provider.patterns : Provider → List String
  | .AirVPN => airVPNPatterns
  | .CJDNS => cjdnsPatterns
  | .IVPN => ivpnPatterns
  | .Mullvad => mullvadPatterns
  | .ProtonVPN => protonVPNPatterns
  | .Tailscale => tailscalePatterns
  | .Yggdrasil => yggdrasilPatterns

/-- The address prefixes of a provider. -/
def Provider.prefixes : Provider → List String
  | .AirVPN => airVPNIPPrefixes
  | .CJDNS => [CJDNSIPPrefix]
  | .IVPN => [IVPNIPPrefix]
  | .Mullvad => [MullvadIPPrefix]
  | .ProtonVPN => [ProtonVPNIPPrefix]
  | .Tailscale => [TailscaleIPPrefix]
  | .Yggdrasil => [YggdrasilIPPrefix]

/-- Whether the address test of a provider asks for a 4-byte form (`To4() != nil`)
or for its absence (`To4() == nil`). -/
def Provider.wantsIPv4 : Provider → Bool
  | .CJDNS => false
  | .Yggdrasil => false
  | _ => true

/-- The classification function of a provider. -/
def Provider.isInterface : Provider → Platform → Option Interface → Bool × Option GoError
  | .AirVPN => isAirVPNInterface
  | .CJDNS => isCJDNSInterface
  | .IVPN => isIVPNInterface
  | .Mullvad => isMullvadInterface
  | .ProtonVPN => isProtonVPNInterface
  | .Tailscale => isTailscaleInterface
  | .Yggdrasil => isYggdrasilInterface

/-- The enumeration function of a provider. -/
def Provider.FindInterfaces : Provider → Platform → List Interface × Option GoError
  | .AirVPN => FindAirVPNInterfaces
  | .CJDNS => FindCJDNSInterfaces
  | .IVPN => FindIVPNInterfaces
  | .Mullvad => FindMullvadInterfaces
  | .ProtonVPN => FindProtonVPNInterfaces
  | .Tailscale => FindTailscaleInterfaces
  | .Yggdrasil => FindYggdrasilInterfaces

/-- The family of an address as the package sees it: IPv4 when `To4()` is not nil. -/
def isIPv4 (ip : IP) : Bool :=
  (IP.To4 ip).isSome

/-- The name test shared by the seven classification functions: some pattern of the
provider occurs in the lowercased interface name. -/
def nameHit (P : Provider) (pf : Platform) (ifc : Interface) : Bool :=
  P.patterns.any (fun pattern => Contains (ToLower pf.unicodeToLower ifc.Name) pattern)

/-- The address test shared by the seven classification functions: the address is a
`*net.IPNet` of the family the provider asks for and its text starts with one of the
provider's prefixes. -/
def addrHit (P : Provider) : Addr → Bool
  | .IPNet ip _ =>
    (isIPv4 ip == P.wantsIPv4) && P.prefixes.any (fun pfx => HasPrefix (IP.String ip) pfx)
  | .IPAddr _ _ => false

/-- The error `isPInterface` returns when the address list cannot be read. -/
def addrsError (ifc : Interface) (err : GoError) : GoError :=
  ErrorfW ("failed to get addresses for interface " ++ ifc.Name ++ ": ") err

/-- The classification of a provider with the family test taken out of the address
loop: an address matches when its text starts with one of the provider's prefixes.
It is the object the family-gated functions of the package are compared with. -/
def isInterfaceUngated (P : Provider) (pf : Platform) (iface : Option Interface) :
    Bool × Option GoError :=
  match iface with
  | none => (false, some (Errorf "nil interface provided"))
  | some ifc =>
    if P.patterns.any (fun pattern =>
        Contains (ToLower pf.unicodeToLower ifc.Name) pattern) then (true, none)
    else
      match pf.Addrs ifc with
      | .error err =>
        (false, some (ErrorfW ("failed to get addresses for interface " ++ ifc.Name ++ ": ") err))
      | .ok addrs =>
        if addrs.any (fun addr =>
            match addr with
            | .IPNet ip _ => P.prefixes.any (fun pfx => HasPrefix (IP.String ip) pfx)
            | .IPAddr _ _ => false) then (true, none)
        else (false, none)

/-! ## Concrete platforms and interfaces -/

/-- The mock interface of `TestIsTailscaleInterface`: `&net.Interface{Name: name}`. -/
def mockInterface (name : String) : Interface :=
  { Index := 0, MTU := 0, Name := name, HardwareAddr := [], Flags := 0 }

/-- A platform on which every interface has the address list `addrs`; nothing is
listed, and the case tables are left trivial (the names used with it are ASCII). -/
def constPlatform (addrs : List Addr) : Platform :=
  { Interfaces := .ok [], Addrs := fun _ => .ok addrs, unicodeToLower := id }

/-- The address `100.64.0.3` in the 16-byte form `net.IPv4` builds. -/
def ip_100_64_0_3 : IP := [0, 0, 0, 0, 0, 0, 0, 0, 0, 0, 0xff, 0xff, 100, 64, 0, 3]

/-- The address `fc00::1`. -/
def ip_fc00_1 : IP := [0xfc, 0, 0, 0, 0, 0, 0, 0, 0, 0, 0, 0, 0, 0, 0, 1]

/-- The address `192.168.1.5` in the 16-byte form `net.IPv4` builds. -/
def ip_192_168_1_5 : IP := [0, 0, 0, 0, 0, 0, 0, 0, 0, 0, 0xff, 0xff, 192, 168, 1, 5]

/-- The address lists of a sample host: `wg0` carries `100.64.0.3/32`, reading the
addresses of `wg1` and of `ts1` fails, every other interface has no address. -/
def sampleAddrs (ifc : Interface) : Except GoError (List Addr) :=
  if ifc.Name = "wg0" then .ok [.IPNet ip_100_64_0_3 [255, 255, 255, 255]]
  else if ifc.Name = "wg1" ∨ ifc.Name = "ts1" then
    .error (.errorString "route ip+net: no such network interface")
  else .ok []

/-- A sample host whose listing succeeds with four interfaces. -/
def samplePlatform : Platform :=
  { Interfaces := .ok [mockInterface "eth0", mockInterface "tailscale0", mockInterface "wg1",
      mockInterface "wg0"],
    Addrs := sampleAddrs,
    unicodeToLower := id }

/-- A host on which `net.Interfaces()` fails. -/
def failingPlatform : Platform :=
  { Interfaces := .error (.errorString "route ip+net: netlinkrib: operation not permitted"),
    Addrs := sampleAddrs,
    unicodeToLower := id }

/-- The address `10.45.0.1` in the 16-byte form `net.IPv4` builds. -/
def ip_10_45_0_1 : IP := [0, 0, 0, 0, 0, 0, 0, 0, 0, 0, 0xff, 0xff, 10, 45, 0, 1]

/-- The address `10.65.0.1` in the 16-byte form `net.IPv4` builds. -/
def ip_10_65_0_1 : IP := [0, 0, 0, 0, 0, 0, 0, 0, 0, 0, 0xff, 0xff, 10, 65, 0, 1]

/-- The address `fc12:3456::1`. -/
def ip_fc12_3456_1 : IP := [0xfc, 0x12, 0x34, 0x56, 0, 0, 0, 0, 0, 0, 0, 0, 0, 0, 0, 1]

/-- The address `201::1`. -/
def ip_201_1 : IP := [0x02, 0x01, 0, 0, 0, 0, 0, 0, 0, 0, 0, 0, 0, 0, 0, 1]

/-- The address `300::1`. -/
def ip_300_1 : IP := [0x03, 0, 0, 0, 0, 0, 0, 0, 0, 0, 0, 0, 0, 0, 0, 1]

/-- The 128-bit mask `ffff:ffff:ffff:ffff::` of a `/64` network. -/
def mask64 : List Nat := [255, 255, 255, 255, 255, 255, 255, 255, 0, 0, 0, 0, 0, 0, 0, 0]

/-! ## Facts about the embedded library functions -/

theorem indexFrom_nonneg_iff (substr : List Char) (l : List Char) (i : Nat) :
    0 ≤ indexFrom substr l i ↔ substr <:+: l := by
  induction l generalizing i with
  | nil =>
    cases substr <;> simp [indexFrom, List.isPrefixOf]
  | cons c cs ih =>
    rw [indexFrom, List.infix_cons_iff]
    by_cases h : substr.isPrefixOf (c :: cs) = true
    · simp [h, List.isPrefixOf_iff_prefix.mp h]
    · have h' : ¬ substr <+: c :: cs := fun hp => h (List.isPrefixOf_iff_prefix.mpr hp)
      simp [h, h', ih]

theorem Contains_iff (s substr : String) :
    Contains s substr = true ↔ substr.data <:+: s.data := by
  simp [Contains, Index, indexFrom_nonneg_iff]

theorem HasPrefix_iff (s pfx : String) :
    HasPrefix s pfx = true ↔ pfx.data <+: s.data := by
  simp only [HasPrefix, Bool.and_eq_true, decide_eq_true_eq]
  constructor
  · rintro ⟨_, h⟩
    exact List.prefix_iff_eq_take.mpr h.symm
  · intro h
    exact ⟨h.length_le, (List.prefix_iff_eq_take.mp h).symm⟩

/-! ## The loops of `IP.String` are run with enough rounds -/

theorem le_zeroRunEnd (p : IP) (fuel j : Nat) : j ≤ zeroRunEnd p fuel j := by
  induction fuel generalizing j with
  | zero => simp [zeroRunEnd]
  | succ fuel ih =>
    rw [zeroRunEnd]
    split
    · exact Nat.le_trans (by omega) (ih (j + 2))
    · exact Nat.le_refl j

theorem zeroRunEnd_fuel (p : IP) (fuel m j : Nat) (h : IPv6len ≤ j + 2 * fuel) :
    zeroRunEnd p (fuel + m) j = zeroRunEnd p fuel j := by
  induction fuel generalizing j with
  | zero =>
    have hj : ¬ j < IPv6len := by omega
    cases m with
    | zero => rfl
    | succ m => simp [zeroRunEnd, hj]
  | succ fuel ih =>
    rw [Nat.add_right_comm, zeroRunEnd, zeroRunEnd]
    split
    · exact ih (j + 2) (by omega)
    · rfl

theorem longestZeroRun_fuel (p : IP) (fuel m i : Nat) (e0 e1 : Int)
    (h : IPv6len ≤ i + 2 * fuel) :
    longestZeroRun p (fuel + m) i e0 e1 = longestZeroRun p fuel i e0 e1 := by
  induction fuel generalizing i e0 e1 with
  | zero =>
    have hi : ¬ i < IPv6len := by omega
    cases m with
    | zero => rfl
    | succ m => simp [longestZeroRun, hi]
  | succ fuel ih =>
    rw [Nat.add_right_comm, longestZeroRun, longestZeroRun]
    have hj := le_zeroRunEnd p 8 i
    split
    · simp only []
      split
      · exact ih _ _ _ (by omega)
      · exact ih _ _ _ (by omega)
    · rfl

theorem printGroups_fuel (p : IP) (e0 e1 : Int) (he : e0 < 0 ∨ e0 < e1) (fuel m i : Nat)
    (h : IPv6len ≤ i + 2 * fuel) :
    printGroups p e0 e1 (fuel + m) i = printGroups p e0 e1 fuel i := by
  induction fuel generalizing i with
  | zero =>
    have hi : ¬ i < IPv6len := by omega
    cases m with
    | zero => rfl
    | succ m => simp [printGroups, hi]
  | succ fuel ih =>
    rw [Nat.add_right_comm, printGroups, printGroups]
    split
    · split
      · simp only []
        split
        · rfl
        · rw [ih (e1.toNat + 2) (by omega)]
      · rw [ih (i + 2) (by omega)]
    · rfl

theorem zeroRun_bounds (e : Int × Int) :
    (if e.2 - e.1 ≤ 2 then ((-1, -1) : Int × Int) else e).1 < 0 ∨
      (if e.2 - e.1 ≤ 2 then ((-1, -1) : Int × Int) else e).1 <
        (if e.2 - e.1 ≤ 2 then ((-1, -1) : Int × Int) else e).2 := by
  split
  · left; decide
  · right; omega

/-! ## The seven classification functions share one shape -/

theorem any_pair_eq (addrs : List Addr) (f g : Addr → Bool) (h : ∀ a, f a = g a) :
    (if addrs.any f = true then ((true, none) : Bool × Option GoError) else (false, none)) =
      (addrs.any g, none) := by
  have hfg : f = g := funext h
  subst hfg
  cases List.any addrs f <;> rfl

theorem isInterface_none (P : Provider) (pf : Platform) :
    P.isInterface pf none = (false, some (Errorf "nil interface provided")) := by
  cases P <;> rfl

theorem isInterface_some (P : Provider) (pf : Platform) (ifc : Interface) :
    P.isInterface pf (some ifc) =
      if nameHit P pf ifc then (true, none)
      else
        match pf.Addrs ifc with
        | .error err => (false, some (addrsError ifc err))
        | .ok addrs => (addrs.any (addrHit P), none) := by
  cases P <;>
    simp only [Provider.isInterface, isAirVPNInterface, isCJDNSInterface, isIVPNInterface,
      isMullvadInterface, isProtonVPNInterface, isTailscaleInterface, isYggdrasilInterface,
      nameHit, Provider.patterns, addrsError] <;>
    split <;> try rfl
  all_goals
    cases hA : pf.Addrs ifc with
    | error err => rfl
    | ok addrs =>
      apply any_pair_eq
      intro a
      cases a <;>
        simp [addrHit, isIPv4, Provider.wantsIPv4, Provider.prefixes, airVPNIPPrefixes]

theorem nameHit_iff (P : Provider) (pf : Platform) (ifc : Interface) :
    nameHit P pf ifc = true ↔
      ∃ pattern ∈ P.patterns, pattern.data <:+: (ToLower pf.unicodeToLower ifc.Name).data := by
  simp [nameHit, List.any_eq_true, Contains_iff]

theorem addrHit_IPNet_iff (P : Provider) (ip : IP) (mask : List Nat) :
    addrHit P (.IPNet ip mask) = true ↔
      isIPv4 ip = P.wantsIPv4 ∧ ∃ pfx ∈ P.prefixes, pfx.data <+: (IP.String ip).data := by
  simp [addrHit, List.any_eq_true, HasPrefix_iff]

theorem any_addrHit_iff (P : Provider) (addrs : List Addr) :
    addrs.any (addrHit P) = true ↔
      ∃ ip mask, Addr.IPNet ip mask ∈ addrs ∧ isIPv4 ip = P.wantsIPv4 ∧
        ∃ pfx ∈ P.prefixes, pfx.data <+: (IP.String ip).data := by
  rw [List.any_eq_true]
  constructor
  · rintro ⟨a, ha, hhit⟩
    cases a with
    | IPNet ip mask => exact ⟨ip, mask, ha, (addrHit_IPNet_iff P ip mask).mp hhit⟩
    | IPAddr ip zone => simp [addrHit] at hhit
  · rintro ⟨ip, mask, ha, h⟩
    exact ⟨_, ha, (addrHit_IPNet_iff P ip mask).mpr h⟩

/-! ## Classification of one interface -/

/-- C1: for every provider and every interface name whose lowercased form contains
one of the provider's name substrings, the classification of an interface with that
name and no addresses is true with no error. -/
theorem name_match_classifies (P : Provider) (pf : Platform) (ifc : Interface)
    (hname : ∃ pattern ∈ P.patterns,
      pattern.data <:+: (ToLower pf.unicodeToLower ifc.Name).data)
    (_haddrs : pf.Addrs ifc = .ok []) :
    P.isInterface pf (some ifc) = (true, none) := by
  rw [isInterface_some, (nameHit_iff P pf ifc).mpr hname]
  rfl

/-- Witness: the names `tailscale0`, `ts0` and `ts-backup`, with no addresses, are
classified as Tailscale. -/
theorem name_match_classifies_witness :
    isTailscaleInterface (constPlatform []) (some (mockInterface "tailscale0")) = (true, none) ∧
    isTailscaleInterface (constPlatform []) (some (mockInterface "ts0")) = (true, none) ∧
    isTailscaleInterface (constPlatform []) (some (mockInterface "ts-backup")) = (true, none) :=
  ⟨name_match_classifies .Tailscale (constPlatform []) (mockInterface "tailscale0")
      ⟨"tailscale", by decide, by decide⟩ rfl,
   name_match_classifies .Tailscale (constPlatform []) (mockInterface "ts0")
      ⟨"ts", by decide, by decide⟩ rfl,
   name_match_classifies .Tailscale (constPlatform []) (mockInterface "ts-backup")
      ⟨"ts", by decide, by decide⟩ rfl⟩

/-- C2: for every provider and every interface whose name matches none of the
provider's substrings and whose address list can be read, if some address is a
`*net.IPNet` of the provider's family whose text starts with one of the provider's
prefixes, the classification is true with no error. -/
theorem address_match_classifies (P : Provider) (pf : Platform) (ifc : Interface)
    (addrs : List Addr) (ip : IP) (mask : List Nat)
    (hname : ¬ ∃ pattern ∈ P.patterns,
      pattern.data <:+: (ToLower pf.unicodeToLower ifc.Name).data)
    (haddrs : pf.Addrs ifc = .ok addrs)
    (hmem : Addr.IPNet ip mask ∈ addrs)
    (hfam : isIPv4 ip = P.wantsIPv4)
    (hpfx : ∃ pfx ∈ P.prefixes, pfx.data <+: (IP.String ip).data) :
    P.isInterface pf (some ifc) = (true, none) := by
  have hn : nameHit P pf ifc = false := by
    cases h : nameHit P pf ifc
    · rfl
    · exact absurd ((nameHit_iff P pf ifc).mp h) hname
  have ha : addrs.any (addrHit P) = true :=
    (any_addrHit_iff P addrs).mpr ⟨ip, mask, hmem, hfam, hpfx⟩
  rw [isInterface_some, hn, haddrs]
  simp [ha]

/-- Witness: `wg0` with the address `100.64.0.3/32` is Tailscale, and `wg0` with the
address `fc00::1/8` is CJDNS. -/
theorem address_match_classifies_witness :
    isTailscaleInterface (constPlatform [.IPNet ip_100_64_0_3 [255, 255, 255, 255]])
        (some (mockInterface "wg0")) = (true, none) ∧
    isCJDNSInterface
        (constPlatform [.IPNet ip_fc00_1 [255, 0, 0, 0, 0, 0, 0, 0, 0, 0, 0, 0, 0, 0, 0, 0]])
        (some (mockInterface "wg0")) = (true, none) :=
  ⟨address_match_classifies .Tailscale
      (constPlatform [.IPNet ip_100_64_0_3 [255, 255, 255, 255]]) (mockInterface "wg0")
      [.IPNet ip_100_64_0_3 [255, 255, 255, 255]] ip_100_64_0_3 [255, 255, 255, 255]
      (by decide) rfl (by decide) (by decide) ⟨"100.", by decide, by decide⟩,
   address_match_classifies .CJDNS
      (constPlatform [.IPNet ip_fc00_1 [255, 0, 0, 0, 0, 0, 0, 0, 0, 0, 0, 0, 0, 0, 0, 0]])
      (mockInterface "wg0")
      [.IPNet ip_fc00_1 [255, 0, 0, 0, 0, 0, 0, 0, 0, 0, 0, 0, 0, 0, 0, 0]] ip_fc00_1
      [255, 0, 0, 0, 0, 0, 0, 0, 0, 0, 0, 0, 0, 0, 0, 0]
      (by decide) rfl (by decide) (by decide) ⟨"fc00:", by decide, by decide⟩⟩

/-- C3: for every provider and every present interface whose address list can be
read, the classification returns no error, and it is true exactly when the lowercased
name contains one of the provider's substrings or some address is a `*net.IPNet` of
the provider's family whose text starts with one of the provider's prefixes. -/
theorem classification_iff (P : Provider) (pf : Platform) (ifc : Interface)
    (addrs : List Addr) (haddrs : pf.Addrs ifc = .ok addrs) :
    (P.isInterface pf (some ifc)).2 = none ∧
    ((P.isInterface pf (some ifc)).1 = true ↔
      (∃ pattern ∈ P.patterns,
        pattern.data <:+: (ToLower pf.unicodeToLower ifc.Name).data) ∨
      (∃ ip mask, Addr.IPNet ip mask ∈ addrs ∧ isIPv4 ip = P.wantsIPv4 ∧
        ∃ pfx ∈ P.prefixes, pfx.data <+: (IP.String ip).data)) := by
  rw [isInterface_some, haddrs, ← nameHit_iff, ← any_addrHit_iff]
  cases hn : nameHit P pf ifc <;> simp

/-- Witness: `wg0` carrying a `*net.IPAddr` and the address `192.168.1.5/24` gets no
error from the Mullvad classification, whose result is governed by the two tests. -/
theorem classification_iff_witness :
    (isMullvadInterface
      (constPlatform [.IPAddr ip_fc00_1 "", .IPNet ip_192_168_1_5 [255, 255, 255, 0]])
      (some (mockInterface "wg0"))).2 = none ∧
    ((isMullvadInterface
      (constPlatform [.IPAddr ip_fc00_1 "", .IPNet ip_192_168_1_5 [255, 255, 255, 0]])
      (some (mockInterface "wg0"))).1 = true ↔
      (∃ pattern ∈ mullvadPatterns, pattern.data <:+: (ToLower id "wg0").data) ∨
      (∃ ip mask,
        Addr.IPNet ip mask ∈
          [Addr.IPAddr ip_fc00_1 "", Addr.IPNet ip_192_168_1_5 [255, 255, 255, 0]] ∧
        isIPv4 ip = true ∧ ∃ pfx ∈ [MullvadIPPrefix], pfx.data <+: (IP.String ip).data)) :=
  classification_iff .Mullvad
    (constPlatform [.IPAddr ip_fc00_1 "", .IPNet ip_192_168_1_5 [255, 255, 255, 0]])
    (mockInterface "wg0") _ rfl

/-- An address with no 4-byte form fails the address test of an IPv4 provider. -/
theorem addrHit_of_To4_none (P : Provider) (hP : P.wantsIPv4 = true) (a : Addr)
    (h6 : ∀ ip mask, a = Addr.IPNet ip mask → IP.To4 ip = none) : addrHit P a = false := by
  cases a with
  | IPNet ip mask => simp [addrHit, isIPv4, h6 ip mask rfl, hP]
  | IPAddr ip zone => rfl

/-- C4: for every IPv4-only provider and every interface whose name matches none of
the provider's substrings and whose only address is an IPv6 address (one with no
4-byte form), the classification is false, whatever the text of that address. -/
theorem ipv6_only_not_ipv4_provider (P : Provider) (pf : Platform) (ifc : Interface)
    (ip : IP) (mask : List Nat)
    (hP : P = .AirVPN ∨ P = .IVPN ∨ P = .Mullvad ∨ P = .ProtonVPN ∨ P = .Tailscale)
    (hname : ¬ ∃ pattern ∈ P.patterns,
      pattern.data <:+: (ToLower pf.unicodeToLower ifc.Name).data)
    (haddrs : pf.Addrs ifc = .ok [Addr.IPNet ip mask])
    (h6 : IP.To4 ip = none) :
    P.isInterface pf (some ifc) = (false, none) := by
  have hn : nameHit P pf ifc = false := by
    cases h : nameHit P pf ifc
    · rfl
    · exact absurd ((nameHit_iff P pf ifc).mp h) hname
  have hw : P.wantsIPv4 = true := by
    rcases hP with h | h | h | h | h <;> subst h <;> rfl
  have ha : addrHit P (Addr.IPNet ip mask) = false :=
    addrHit_of_To4_none P hw _ (fun ip' mask' heq => by cases heq; exact h6)
  rw [isInterface_some, hn, haddrs]
  simp [ha]

/-- Witness: `wg0` with the single address `fc00::1/8` is not Tailscale, while it is
CJDNS. -/
theorem ipv6_only_not_ipv4_provider_witness :
    isTailscaleInterface
        (constPlatform [.IPNet ip_fc00_1 [255, 0, 0, 0, 0, 0, 0, 0, 0, 0, 0, 0, 0, 0, 0, 0]])
        (some (mockInterface "wg0")) = (false, none) ∧
    isCJDNSInterface
        (constPlatform [.IPNet ip_fc00_1 [255, 0, 0, 0, 0, 0, 0, 0, 0, 0, 0, 0, 0, 0, 0, 0]])
        (some (mockInterface "wg0")) = (true, none) :=
  ⟨ipv6_only_not_ipv4_provider .Tailscale
      (constPlatform [.IPNet ip_fc00_1 [255, 0, 0, 0, 0, 0, 0, 0, 0, 0, 0, 0, 0, 0, 0, 0]])
      (mockInterface "wg0") ip_fc00_1 [255, 0, 0, 0, 0, 0, 0, 0, 0, 0, 0, 0, 0, 0, 0, 0]
      (by decide) (by decide) rfl (by decide),
   by decide⟩

/-- The name `eth0` lowercases to itself, whatever the case tables. -/
theorem ToLower_eth0 (f : Char → Char) : ToLower f "eth0" = "eth0" := by
  unfold ToLower
  rw [if_pos (by decide)]
  decide

theorem nameHit_eth0 (P : Provider) (pf : Platform) (ifc : Interface)
    (hname : ifc.Name = "eth0") : nameHit P pf ifc = false := by
  rw [nameHit, hname, ToLower_eth0]
  cases P <;> decide

/-- C5: for every provider, an interface named `eth0` with no addresses is classified
false with no error. -/
theorem eth0_not_classified (P : Provider) (pf : Platform) (ifc : Interface)
    (hname : ifc.Name = "eth0") (haddrs : pf.Addrs ifc = .ok []) :
    P.isInterface pf (some ifc) = (false, none) := by
  rw [isInterface_some, nameHit_eth0 P pf ifc hname, haddrs]
  rfl

/-- Witness: the mock interface `eth0` of the package's test is not Tailscale, nor
any of the other six providers. -/
theorem eth0_not_classified_witness :
    isAirVPNInterface (constPlatform []) (some (mockInterface "eth0")) = (false, none) ∧
    isCJDNSInterface (constPlatform []) (some (mockInterface "eth0")) = (false, none) ∧
    isIVPNInterface (constPlatform []) (some (mockInterface "eth0")) = (false, none) ∧
    isMullvadInterface (constPlatform []) (some (mockInterface "eth0")) = (false, none) ∧
    isProtonVPNInterface (constPlatform []) (some (mockInterface "eth0")) = (false, none) ∧
    isTailscaleInterface (constPlatform []) (some (mockInterface "eth0")) = (false, none) ∧
    isYggdrasilInterface (constPlatform []) (some (mockInterface "eth0")) = (false, none) :=
  ⟨eth0_not_classified .AirVPN (constPlatform []) (mockInterface "eth0") rfl rfl,
   eth0_not_classified .CJDNS (constPlatform []) (mockInterface "eth0") rfl rfl,
   eth0_not_classified .IVPN (constPlatform []) (mockInterface "eth0") rfl rfl,
   eth0_not_classified .Mullvad (constPlatform []) (mockInterface "eth0") rfl rfl,
   eth0_not_classified .ProtonVPN (constPlatform []) (mockInterface "eth0") rfl rfl,
   eth0_not_classified .Tailscale (constPlatform []) (mockInterface "eth0") rfl rfl,
   eth0_not_classified .Yggdrasil (constPlatform []) (mockInterface "eth0") rfl rfl⟩

/-! ## Enumeration -/

/-- A loop that appends the interfaces a classification function reports with a nil
error, and skips the others, computes a filter of the listed interfaces. -/
theorem loop_filter (isP : Option Interface → Bool × Option GoError)
    (loop : List Interface → List Interface → List Interface)
    (hnil : ∀ acc, loop [] acc = acc)
    (hcons : ∀ iface rest acc, loop (iface :: rest) acc =
      match isP (some iface) with
      | (_, some _) => loop rest acc
      | (b, none) => if b then loop rest (acc ++ [iface]) else loop rest acc)
    (L acc : List Interface) :
    loop L acc = acc ++ L.filter (fun ifc => decide (isP (some ifc) = (true, none))) := by
  induction L generalizing acc with
  | nil => simp [hnil]
  | cons iface rest ih =>
    rw [hcons]
    rcases hres : isP (some iface) with ⟨b, _ | err⟩
    · cases b <;> simp [List.filter_cons, hres, ih]
    · simp [List.filter_cons, hres, ih]

theorem FindInterfaces_ok (P : Provider) (pf : Platform) (L : List Interface)
    (hL : pf.Interfaces = .ok L) :
    P.FindInterfaces pf =
      (L.filter (fun ifc => decide (P.isInterface pf (some ifc) = (true, none))), none) := by
  cases P <;>
    simp only [Provider.FindInterfaces, FindAirVPNInterfaces, FindCJDNSInterfaces,
      FindIVPNInterfaces, FindMullvadInterfaces, FindProtonVPNInterfaces,
      FindTailscaleInterfaces, FindYggdrasilInterfaces, hL, Provider.isInterface]
  · rw [loop_filter (isAirVPNInterface pf) (airVPNLoop pf) (fun _ => rfl) (fun _ _ _ => rfl)]
    rfl
  · rw [loop_filter (isCJDNSInterface pf) (cjdnsLoop pf) (fun _ => rfl) (fun _ _ _ => rfl)]
    rfl
  · rw [loop_filter (isIVPNInterface pf) (ivpnLoop pf) (fun _ => rfl) (fun _ _ _ => rfl)]
    rfl
  · rw [loop_filter (isMullvadInterface pf) (mullvadLoop pf) (fun _ => rfl) (fun _ _ _ => rfl)]
    rfl
  · rw [loop_filter (isProtonVPNInterface pf) (protonVPNLoop pf) (fun _ => rfl)
      (fun _ _ _ => rfl)]
    rfl
  · rw [loop_filter (isTailscaleInterface pf) (tailscaleLoop pf) (fun _ => rfl)
      (fun _ _ _ => rfl)]
    rfl
  · rw [loop_filter (isYggdrasilInterface pf) (yggdrasilLoop pf) (fun _ => rfl)
      (fun _ _ _ => rfl)]
    rfl

theorem FindInterfaces_error (P : Provider) (pf : Platform) (e : GoError)
    (he : pf.Interfaces = .error e) :
    P.FindInterfaces pf = ([], some (ErrorfW "failed to list network interfaces: " e)) := by
  cases P <;>
    simp only [Provider.FindInterfaces, FindAirVPNInterfaces, FindCJDNSInterfaces,
      FindIVPNInterfaces, FindMullvadInterfaces, FindProtonVPNInterfaces,
      FindTailscaleInterfaces, FindYggdrasilInterfaces, he]

/-- C6: for every provider, when the interface listing succeeds with the list `L`, the
enumeration returns, with no error, the interfaces of `L` that the classification
reports true with a nil error, in the order of `L`, each kept or dropped on its own
classification alone. -/
theorem find_is_filter (P : Provider) (pf : Platform) (L : List Interface)
    (hL : pf.Interfaces = .ok L) :
    P.FindInterfaces pf =
      (L.filter (fun ifc => decide (P.isInterface pf (some ifc) = (true, none))), none) ∧
    (P.FindInterfaces pf).1.Sublist L := by
  rw [FindInterfaces_ok P pf L hL]
  exact ⟨rfl, List.filter_sublist L⟩

/-- Witness: on the sample host the Tailscale enumeration keeps `tailscale0` and `wg0`,
in the order of the listing. -/
theorem find_is_filter_witness :
    FindTailscaleInterfaces samplePlatform =
      ([mockInterface "tailscale0", mockInterface "wg0"], none) :=
  (find_is_filter .Tailscale samplePlatform _ rfl).1.trans (by decide)

/-- C7: for every provider, a non-nil error of the enumeration is always paired with
the empty result; and when the interface listing fails with `e`, the enumeration
returns the empty result with an error that wraps `e`. -/
theorem find_listing_error (P : Provider) (pf : Platform) :
    ((P.FindInterfaces pf).2 ≠ none → (P.FindInterfaces pf).1 = []) ∧
    ∀ e, pf.Interfaces = .error e →
      ∃ err, P.FindInterfaces pf = ([], some err) ∧ err.Unwrap = some e ∧
        err.Error = "failed to list network interfaces: " ++ e.Error := by
  constructor
  · intro herr
    cases hI : pf.Interfaces with
    | error e => rw [FindInterfaces_error P pf e hI]
    | ok L =>
      rw [FindInterfaces_ok P pf L hI] at herr
      exact absurd rfl herr
  · intro e he
    exact ⟨_, FindInterfaces_error P pf e he, rfl, rfl⟩

/-- Witness: on the host whose listing fails, the Tailscale enumeration returns the
empty result and an error wrapping the platform error. -/
theorem find_listing_error_witness :
    ∃ err, FindTailscaleInterfaces failingPlatform = ([], some err) ∧
      err.Unwrap = some (.errorString "route ip+net: netlinkrib: operation not permitted") ∧
      err.Error =
        "failed to list network interfaces: route ip+net: netlinkrib: operation not permitted" :=
  (find_listing_error .Tailscale failingPlatform).2 _ rfl

/-- C8: for every provider, when the interface listing succeeds the enumeration returns
no error, whatever the address lookups do; an interface whose address lookup is made
(its name matches no pattern) and fails is not in the result; and the result is the
classification of the interfaces whose classification raised no error. -/
theorem addr_failure_skipped (P : Provider) (pf : Platform) (L : List Interface)
    (hL : pf.Interfaces = .ok L) :
    (P.FindInterfaces pf).2 = none ∧
    (∀ ifc e,
      (¬ ∃ pattern ∈ P.patterns,
        pattern.data <:+: (ToLower pf.unicodeToLower ifc.Name).data) →
      pf.Addrs ifc = .error e →
      (P.isInterface pf (some ifc)).2 ≠ none ∧ ifc ∉ (P.FindInterfaces pf).1) ∧
    (∀ ifc, (P.isInterface pf (some ifc)).2 ≠ none → ifc ∉ (P.FindInterfaces pf).1) ∧
    (P.FindInterfaces pf).1 =
      (L.filter (fun ifc => (P.isInterface pf (some ifc)).2.isNone)).filter
        (fun ifc => (P.isInterface pf (some ifc)).1) := by
  rw [FindInterfaces_ok P pf L hL]
  have hskip : ∀ ifc, (P.isInterface pf (some ifc)).2 ≠ none →
      ifc ∉ L.filter (fun ifc => decide (P.isInterface pf (some ifc) = (true, none))) := by
    intro ifc herr hmem
    have := (List.mem_filter.mp hmem).2
    simp only [decide_eq_true_eq] at this
    rw [this] at herr
    exact herr rfl
  refine ⟨rfl, ?_, hskip, ?_⟩
  · intro ifc e hname he
    have hn : nameHit P pf ifc = false := by
      cases h : nameHit P pf ifc
      · rfl
      · exact absurd ((nameHit_iff P pf ifc).mp h) hname
    have herr : (P.isInterface pf (some ifc)).2 ≠ none := by
      rw [isInterface_some, hn, he]
      simp
    exact ⟨herr, hskip ifc herr⟩
  · simp only [List.filter_filter]
    apply List.filter_congr
    intro ifc _
    rcases P.isInterface pf (some ifc) with ⟨b, _ | err⟩ <;> cases b <;> simp

/-- Witness: on the sample host, where reading the addresses of `wg1` fails, the
Tailscale enumeration returns no error, leaves `wg1` out and still keeps `wg0`. -/
theorem addr_failure_skipped_witness :
    (FindTailscaleInterfaces samplePlatform).2 = none ∧
    mockInterface "wg1" ∉ (FindTailscaleInterfaces samplePlatform).1 ∧
    mockInterface "wg0" ∈ (FindTailscaleInterfaces samplePlatform).1 :=
  ⟨(addr_failure_skipped .Tailscale samplePlatform _ rfl).1,
   ((addr_failure_skipped .Tailscale samplePlatform _ rfl).2.1 (mockInterface "wg1")
      (.errorString "route ip+net: no such network interface") (by decide) rfl).2,
   by decide⟩

/-- C9: for every provider, the classification of an absent (nil) interface is false
together with an error; it is never true. -/
theorem nil_interface_rejected (P : Provider) (pf : Platform) :
    P.isInterface pf none = (false, some (Errorf "nil interface provided")) ∧
    (P.isInterface pf none).1 ≠ true ∧ (P.isInterface pf none).2 ≠ none := by
  rw [isInterface_none]
  exact ⟨rfl, by simp, by simp⟩

/-- C10: for every provider and every present interface whose lowercased name contains
none of the provider's substrings, if reading the addresses of the interface fails with
`e`, the classification is false together with an error that wraps `e`. -/
theorem addr_lookup_error (P : Provider) (pf : Platform) (ifc : Interface) (e : GoError)
    (hname : ¬ ∃ pattern ∈ P.patterns,
      pattern.data <:+: (ToLower pf.unicodeToLower ifc.Name).data)
    (he : pf.Addrs ifc = .error e) :
    ∃ err, P.isInterface pf (some ifc) = (false, some err) ∧ err.Unwrap = some e ∧
      err.Error = "failed to get addresses for interface " ++ ifc.Name ++ ": " ++ e.Error := by
  have hn : nameHit P pf ifc = false := by
    cases h : nameHit P pf ifc
    · rfl
    · exact absurd ((nameHit_iff P pf ifc).mp h) hname
  refine ⟨addrsError ifc e, ?_, rfl, rfl⟩
  rw [isInterface_some, hn, he]
  rfl

/-- Witness: on the sample host the Mullvad classification of `wg1`, whose addresses
cannot be read, is false with an error wrapping the platform error. -/
theorem addr_lookup_error_witness :
    ∃ err, isMullvadInterface samplePlatform (some (mockInterface "wg1")) = (false, some err) ∧
      err.Unwrap = some (.errorString "route ip+net: no such network interface") ∧
      err.Error =
        "failed to get addresses for interface wg1: route ip+net: no such network interface" :=
  addr_lookup_error .Mullvad samplePlatform (mockInterface "wg1")
    (.errorString "route ip+net: no such network interface") (by decide) rfl

/-- C11: for every provider, when the interface listing succeeds with zero interfaces
the enumeration returns the empty list and no error. -/
theorem empty_listing (P : Provider) (pf : Platform) (hL : pf.Interfaces = .ok []) :
    P.FindInterfaces pf = ([], none) := by
  rw [FindInterfaces_ok P pf [] hL]
  rfl

/-- Witness: on a host that lists no interface, each of the seven enumerations returns
the empty list and no error. -/
theorem empty_listing_witness :
    FindAirVPNInterfaces (constPlatform []) = ([], none) ∧
    FindCJDNSInterfaces (constPlatform []) = ([], none) ∧
    FindIVPNInterfaces (constPlatform []) = ([], none) ∧
    FindMullvadInterfaces (constPlatform []) = ([], none) ∧
    FindProtonVPNInterfaces (constPlatform []) = ([], none) ∧
    FindTailscaleInterfaces (constPlatform []) = ([], none) ∧
    FindYggdrasilInterfaces (constPlatform []) = ([], none) :=
  ⟨empty_listing .AirVPN (constPlatform []) rfl,
   empty_listing .CJDNS (constPlatform []) rfl,
   empty_listing .IVPN (constPlatform []) rfl,
   empty_listing .Mullvad (constPlatform []) rfl,
   empty_listing .ProtonVPN (constPlatform []) rfl,
   empty_listing .Tailscale (constPlatform []) rfl,
   empty_listing .Yggdrasil (constPlatform []) rfl⟩

/-! ## The name test comes first -/

/-- C12: for every provider and every present interface whose lowercased name contains
one of the provider's substrings, the classification is true with no error whatever
reading the addresses would give: any address list, or a failure. -/
theorem name_match_short_circuits (P : Provider) (pf : Platform) (ifc : Interface)
    (hname : ∃ pattern ∈ P.patterns,
      pattern.data <:+: (ToLower pf.unicodeToLower ifc.Name).data)
    (addrsFn : Interface → Except GoError (List Addr)) :
    P.isInterface { pf with Addrs := addrsFn } (some ifc) = (true, none) := by
  have hn : nameHit P { pf with Addrs := addrsFn } ifc = true :=
    (nameHit_iff P { pf with Addrs := addrsFn } ifc).mpr hname
  rw [isInterface_some, hn]
  rfl

/-- Witness: on the sample host reading the addresses of `ts1` fails, and `ts1` is
Tailscale all the same; it is Tailscale too with the address `192.168.1.5/24`. -/
theorem name_match_short_circuits_witness :
    (∃ e, sampleAddrs (mockInterface "ts1") = .error e) ∧
    isTailscaleInterface samplePlatform (some (mockInterface "ts1")) = (true, none) ∧
    isTailscaleInterface (constPlatform [.IPNet ip_192_168_1_5 [255, 255, 255, 0]])
      (some (mockInterface "ts1")) = (true, none) :=
  ⟨⟨_, rfl⟩,
   name_match_short_circuits .Tailscale samplePlatform (mockInterface "ts1")
     ⟨"ts", by decide, by decide⟩ sampleAddrs,
   name_match_short_circuits .Tailscale samplePlatform (mockInterface "ts1")
     ⟨"ts", by decide, by decide⟩ (fun _ => .ok [.IPNet ip_192_168_1_5 [255, 255, 255, 0]])⟩

/-! ## The text of an IPv4 address -/

theorem String_of_To4_some (ip p4 : IP) (h : IP.To4 ip = some p4) :
    (IP.String ip).data =
      ubtoa (p4.getD 0 0) ++ '.' :: (ubtoa (p4.getD 1 0) ++ '.' ::
        (ubtoa (p4.getD 2 0) ++ '.' :: ubtoa (p4.getD 3 0))) := by
  have hlen : ip.length ≠ 0 := by
    intro h0
    simp [IP.To4, h0, IPv4len, IPv6len] at h
  simp [IP.String, hlen, h]

theorem digitChar_ne_dot : ∀ x, x < 10 → digitChar x ≠ '.' := by
  decide

theorem digitChar_inj : ∀ x, x < 10 → ∀ y, y < 10 → digitChar x = digitChar y → x = y := by
  decide

theorem ubtoa_no_dot (v : Nat) (hv : v < 256) : '.' ∉ ubtoa v := by
  unfold ubtoa
  split_ifs with h1 h2 <;>
    simp only [List.mem_cons, List.mem_singleton, List.not_mem_nil, or_false, not_or]
  · exact (digitChar_ne_dot v h1).symm
  · exact ⟨(digitChar_ne_dot _ (by omega)).symm, (digitChar_ne_dot _ (by omega)).symm⟩
  · exact ⟨(digitChar_ne_dot _ (by omega)).symm, (digitChar_ne_dot _ (by omega)).symm,
      (digitChar_ne_dot _ (by omega)).symm⟩

theorem ubtoa_length_le (v : Nat) : (ubtoa v).length ≤ 3 := by
  unfold ubtoa
  split_ifs <;> simp

theorem ubtoa_inj (v k : Nat) (hv : v < 256) (hk : k < 256) (h : ubtoa v = ubtoa k) :
    v = k := by
  unfold ubtoa at h
  split_ifs at h <;> simp only [List.cons.injEq, and_true, reduceCtorEq, and_false] at h
  · exact digitChar_inj v (by omega) k (by omega) h
  · have h1 := digitChar_inj (v / 10) (by omega) (k / 10) (by omega) h.1
    have h2 := digitChar_inj (v % 10) (by omega) (k % 10) (by omega) h.2
    omega
  · have h1 := digitChar_inj (v / 100) (by omega) (k / 100) (by omega) h.1
    have h2 := digitChar_inj (v / 10 % 10) (by omega) (k / 10 % 10) (by omega) h.2.1
    have h3 := digitChar_inj (v % 10) (by omega) (k % 10) (by omega) h.2.2
    omega

theorem prefix_dot_split (l1 l2 X Y : List Char) (h1 : '.' ∉ l1) (h2 : '.' ∉ l2) :
    (l2 ++ '.' :: Y) <+: (l1 ++ '.' :: X) ↔ l1 = l2 ∧ Y <+: X := by
  induction l1 generalizing l2 with
  | nil =>
    cases l2 with
    | nil => simp
    | cons c cs =>
      have hc : c ≠ '.' := fun h => h2 (by rw [h]; exact List.mem_cons_self _ _)
      simp [hc]
  | cons a as ih =>
    have ha : '.' ≠ a := fun h => h1 (by rw [h]; exact List.mem_cons_self _ _)
    cases l2 with
    | nil => simp [ha]
    | cons c cs =>
      have h1' : '.' ∉ as := fun h => h1 (List.mem_cons_of_mem _ h)
      have h2' : '.' ∉ cs := fun h => h2 (List.mem_cons_of_mem _ h)
      simp only [List.cons_append, List.cons_prefix_cons, ih cs h1' h2', List.cons.injEq]
      tauto

theorem two_bytes_prefix_iff (k1 k2 a b : Nat) (rest : List Char) (hk1 : k1 < 256)
    (hk2 : k2 < 256) (ha : a < 256) (hb : b < 256) :
    (ubtoa k1 ++ '.' :: (ubtoa k2 ++ '.' :: [])) <+: (ubtoa a ++ '.' :: (ubtoa b ++ '.' :: rest)) ↔
      a = k1 ∧ b = k2 := by
  rw [prefix_dot_split _ _ _ _ (ubtoa_no_dot a ha) (ubtoa_no_dot k1 hk1),
    prefix_dot_split _ _ _ _ (ubtoa_no_dot b hb) (ubtoa_no_dot k2 hk2)]
  constructor
  · rintro ⟨h1, h2, _⟩
    exact ⟨ubtoa_inj a k1 ha hk1 h1, ubtoa_inj b k2 hb hk2 h2⟩
  · rintro ⟨rfl, rfl⟩
    exact ⟨rfl, rfl, List.nil_prefix⟩

theorem one_byte_prefix_iff (k1 a : Nat) (rest : List Char) (hk1 : k1 < 256) (ha : a < 256) :
    (ubtoa k1 ++ '.' :: []) <+: (ubtoa a ++ '.' :: rest) ↔ a = k1 := by
  rw [prefix_dot_split _ _ _ _ (ubtoa_no_dot a ha) (ubtoa_no_dot k1 hk1)]
  constructor
  · rintro ⟨h1, _⟩
    exact ubtoa_inj a k1 ha hk1 h1
  · rintro rfl
    exact ⟨rfl, List.nil_prefix⟩

theorem isInterface_single (P : Provider) (pf : Platform) (ifc : Interface) (a : Addr)
    (hname : ¬ ∃ pattern ∈ P.patterns,
      pattern.data <:+: (ToLower pf.unicodeToLower ifc.Name).data)
    (haddrs : pf.Addrs ifc = .ok [a]) :
    P.isInterface pf (some ifc) = (addrHit P a, none) := by
  have hn : nameHit P pf ifc = false := by
    cases h : nameHit P pf ifc
    · rfl
    · exact absurd ((nameHit_iff P pf ifc).mp h) hname
  rw [isInterface_some, hn, haddrs]
  simp

theorem isIPv4_of_To4 (ip p4 : IP) (h : IP.To4 ip = some p4) : isIPv4 ip = true := by
  simp [isIPv4, h]

/-- The address test of the five IPv4 providers on an address `a.b.c.d`, by its first
two bytes. -/
theorem addrHit_v4 (ip : IP) (mask : List Nat) (a b c d : Nat) (ha : a < 256) (hb : b < 256)
    (hip : IP.To4 ip = some [a, b, c, d]) :
    (addrHit .AirVPN (.IPNet ip mask) = true ↔ a = 10 ∧ (b = 4 ∨ b = 30)) ∧
    (addrHit .IVPN (.IPNet ip mask) = true ↔ a = 172 ∧ b = 16) ∧
    (addrHit .Mullvad (.IPNet ip mask) = true ↔ a = 10 ∧ b = 64) ∧
    (addrHit .ProtonVPN (.IPNet ip mask) = true ↔ a = 10 ∧ b = 2) ∧
    (addrHit .Tailscale (.IPNet ip mask) = true ↔ a = 100) := by
  have hs := String_of_To4_some ip _ hip
  simp only [List.getD_cons_zero, List.getD_cons_succ] at hs
  have h4 := isIPv4_of_To4 ip _ hip
  have e2 : ∀ k1 k2 : Nat, k1 < 256 → k2 < 256 →
      ((ubtoa k1 ++ '.' :: (ubtoa k2 ++ '.' :: [])) <+: (IP.String ip).data ↔ a = k1 ∧ b = k2) := by
    intro k1 k2 hk1 hk2
    rw [hs]
    exact two_bytes_prefix_iff k1 k2 a b _ hk1 hk2 ha hb
  have e1 : ∀ k1 : Nat, k1 < 256 →
      ((ubtoa k1 ++ '.' :: []) <+: (IP.String ip).data ↔ a = k1) := by
    intro k1 hk1
    rw [hs]
    exact one_byte_prefix_iff k1 a _ hk1 ha
  have q1 : ("10.4." : String).data <+: (IP.String ip).data ↔ a = 10 ∧ b = 4 :=
    e2 10 4 (by omega) (by omega)
  have q2 : ("10.30." : String).data <+: (IP.String ip).data ↔ a = 10 ∧ b = 30 :=
    e2 10 30 (by omega) (by omega)
  have q3 : IVPNIPPrefix.data <+: (IP.String ip).data ↔ a = 172 ∧ b = 16 :=
    e2 172 16 (by omega) (by omega)
  have q4 : MullvadIPPrefix.data <+: (IP.String ip).data ↔ a = 10 ∧ b = 64 :=
    e2 10 64 (by omega) (by omega)
  have q5 : ProtonVPNIPPrefix.data <+: (IP.String ip).data ↔ a = 10 ∧ b = 2 :=
    e2 10 2 (by omega) (by omega)
  have q6 : TailscaleIPPrefix.data <+: (IP.String ip).data ↔ a = 100 :=
    e1 100 (by omega)
  have one : ∀ (P : Provider) (pfx : String), P.wantsIPv4 = true → P.prefixes = [pfx] →
      (addrHit P (.IPNet ip mask) = true ↔ pfx.data <+: (IP.String ip).data) := by
    intro P pfx hP hpfx
    rw [addrHit_IPNet_iff, hpfx, h4, hP]
    constructor
    · rintro ⟨_, p, hp, hpre⟩
      rw [List.mem_singleton] at hp
      rw [← hp]
      exact hpre
    · intro hpre
      exact ⟨rfl, pfx, List.mem_singleton.mpr rfl, hpre⟩
  refine ⟨?_, ?_, ?_, ?_, ?_⟩
  · rw [addrHit_IPNet_iff, h4]
    constructor
    · rintro ⟨_, p, hp, hpre⟩
      have hp' : p = "10.4." ∨ p = "10.30." := by
        simpa [Provider.prefixes, airVPNIPPrefixes] using hp
      rcases hp' with rfl | rfl
      · exact ⟨(q1.mp hpre).1, Or.inl (q1.mp hpre).2⟩
      · exact ⟨(q2.mp hpre).1, Or.inr (q2.mp hpre).2⟩
    · rintro ⟨h10, h | h⟩
      · exact ⟨rfl, "10.4.", by decide, q1.mpr ⟨h10, h⟩⟩
      · exact ⟨rfl, "10.30.", by decide, q2.mpr ⟨h10, h⟩⟩
  · exact (one .IVPN _ rfl rfl).trans q3
  · exact (one .Mullvad _ rfl rfl).trans q4
  · exact (one .ProtonVPN _ rfl rfl).trans q5
  · exact (one .Tailscale _ rfl rfl).trans q6

/-! ## String prefixes and the documented address ranges -/

/-- C13, refuted as stated: `wg0` matches no AirVPN pattern, the text of its only
address is `10.45.0.1`, that text does not start with `10.4.`, and the interface is not
classified as AirVPN. -/
theorem airvpn_10_45_counterexample :
    (¬ ∃ pattern ∈ airVPNPatterns, pattern.data <:+: (ToLower id "wg0").data) ∧
    IP.String ip_10_45_0_1 = "10.45.0.1" ∧
    HasPrefix "10.45.0.1" "10.4." = false ∧
    isAirVPNInterface (constPlatform [.IPNet ip_10_45_0_1 [255, 255, 0, 0]])
      (some (mockInterface "wg0")) = (false, none) := by
  decide

/-- C13, amended: the AirVPN prefix `10.4.` ends in a dot and so does not match the
address `10.45.0.1`; an interface whose name matches no AirVPN pattern and whose only
address is the IPv4 address `10.45.0.1` is classified false, with no error. -/
theorem airvpn_10_45_not_matched (pf : Platform) (ifc : Interface) (ip : IP)
    (mask : List Nat)
    (hname : ¬ ∃ pattern ∈ airVPNPatterns,
      pattern.data <:+: (ToLower pf.unicodeToLower ifc.Name).data)
    (haddrs : pf.Addrs ifc = .ok [Addr.IPNet ip mask])
    (hip : IP.To4 ip = some [10, 45, 0, 1]) :
    isAirVPNInterface pf (some ifc) = (false, none) := by
  have hsingle := isInterface_single .AirVPN pf ifc _ hname haddrs
  have hiff := (addrHit_v4 ip mask 10 45 0 1 (by omega) (by omega) hip).1
  have hfalse : addrHit .AirVPN (.IPNet ip mask) = false := by
    cases h : addrHit .AirVPN (.IPNet ip mask)
    · rfl
    · have := hiff.mp h
      omega
  rw [hfalse] at hsingle
  exact hsingle

/-- Witness: `wg0` with the 4-byte address `10.45.0.1` is not AirVPN. -/
theorem airvpn_10_45_not_matched_witness :
    isAirVPNInterface (constPlatform [.IPNet [10, 45, 0, 1] [255, 255, 0, 0]])
      (some (mockInterface "wg0")) = (false, none) :=
  airvpn_10_45_not_matched (constPlatform [.IPNet [10, 45, 0, 1] [255, 255, 0, 0]])
    (mockInterface "wg0") [10, 45, 0, 1] [255, 255, 0, 0] (by decide) rfl (by decide)

/-- C14: for AirVPN, IVPN and ProtonVPN the prefix rule is the documented `/16` rule:
for every IPv4 address `a.b.c.d` that is the only address of an interface whose name
matches no pattern, the classification is true exactly when the address lies in
`10.4.0.0/16` or `10.30.0.0/16` (AirVPN), in `172.16.0.0/16` (IVPN), in `10.2.0.0/16`
(ProtonVPN). -/
theorem slash16_prefix_rules (pf : Platform) (ifc : Interface) (ip : IP) (mask : List Nat)
    (a b c d : Nat) (ha : a < 256) (hb : b < 256)
    (hip : IP.To4 ip = some [a, b, c, d])
    (haddrs : pf.Addrs ifc = .ok [Addr.IPNet ip mask]) :
    ((¬ ∃ pattern ∈ airVPNPatterns,
        pattern.data <:+: (ToLower pf.unicodeToLower ifc.Name).data) →
      ((isAirVPNInterface pf (some ifc)).1 = true ↔ a = 10 ∧ (b = 4 ∨ b = 30))) ∧
    ((¬ ∃ pattern ∈ ivpnPatterns,
        pattern.data <:+: (ToLower pf.unicodeToLower ifc.Name).data) →
      ((isIVPNInterface pf (some ifc)).1 = true ↔ a = 172 ∧ b = 16)) ∧
    ((¬ ∃ pattern ∈ protonVPNPatterns,
        pattern.data <:+: (ToLower pf.unicodeToLower ifc.Name).data) →
      ((isProtonVPNInterface pf (some ifc)).1 = true ↔ a = 10 ∧ b = 2)) := by
  have hv4 := addrHit_v4 ip mask a b c d ha hb hip
  refine ⟨fun hname => ?_, fun hname => ?_, fun hname => ?_⟩
  · have hsingle := isInterface_single .AirVPN pf ifc _ hname haddrs
    have h1 : (isAirVPNInterface pf (some ifc)).1 = addrHit .AirVPN (.IPNet ip mask) :=
      congrArg Prod.fst hsingle
    rw [h1]
    exact hv4.1
  · have hsingle := isInterface_single .IVPN pf ifc _ hname haddrs
    have h1 : (isIVPNInterface pf (some ifc)).1 = addrHit .IVPN (.IPNet ip mask) :=
      congrArg Prod.fst hsingle
    rw [h1]
    exact hv4.2.1
  · have hsingle := isInterface_single .ProtonVPN pf ifc _ hname haddrs
    have h1 : (isProtonVPNInterface pf (some ifc)).1 = addrHit .ProtonVPN (.IPNet ip mask) :=
      congrArg Prod.fst hsingle
    rw [h1]
    exact hv4.2.2.2.1

/-- Witness: on `wg0`, the address `10.30.7.9` is AirVPN and is neither IVPN nor
ProtonVPN. -/
theorem slash16_prefix_rules_witness :
    (isAirVPNInterface (constPlatform [.IPNet [10, 30, 7, 9] [255, 255, 0, 0]])
      (some (mockInterface "wg0"))).1 = true ∧
    ¬ (isIVPNInterface (constPlatform [.IPNet [10, 30, 7, 9] [255, 255, 0, 0]])
      (some (mockInterface "wg0"))).1 = true ∧
    ¬ (isProtonVPNInterface (constPlatform [.IPNet [10, 30, 7, 9] [255, 255, 0, 0]])
      (some (mockInterface "wg0"))).1 = true :=
  ⟨((slash16_prefix_rules (constPlatform [.IPNet [10, 30, 7, 9] [255, 255, 0, 0]])
      (mockInterface "wg0") [10, 30, 7, 9] [255, 255, 0, 0] 10 30 7 9 (by decide) (by decide)
      (by decide) rfl).1 (by decide)).mpr ⟨rfl, Or.inr rfl⟩,
   fun h => absurd (((slash16_prefix_rules
      (constPlatform [.IPNet [10, 30, 7, 9] [255, 255, 0, 0]])
      (mockInterface "wg0") [10, 30, 7, 9] [255, 255, 0, 0] 10 30 7 9 (by decide) (by decide)
      (by decide) rfl).2.1 (by decide)).mp h).1 (by decide),
   fun h => absurd (((slash16_prefix_rules
      (constPlatform [.IPNet [10, 30, 7, 9] [255, 255, 0, 0]])
      (mockInterface "wg0") [10, 30, 7, 9] [255, 255, 0, 0] 10 30 7 9 (by decide) (by decide)
      (by decide) rfl).2.2 (by decide)).mp h).2 (by decide)⟩

/-- C15, the code at a failing input: `10.65.0.1` lies in `10.64.0.0/10` (first byte
10, second byte with top bits `01`), `wg0` matches no Mullvad pattern, and the
interface carrying that address is not classified as Mullvad. -/
theorem mullvad_misses_10_65 :
    IP.To4 ip_10_65_0_1 = some [10, 65, 0, 1] ∧ 65 &&& 0xc0 = 64 ∧
    IP.String ip_10_65_0_1 = "10.65.0.1" ∧
    (¬ ∃ pattern ∈ mullvadPatterns, pattern.data <:+: (ToLower id "wg0").data) ∧
    isMullvadInterface (constPlatform [.IPNet ip_10_65_0_1 [255, 255, 255, 255]])
      (some (mockInterface "wg0")) = (false, none) := by
  decide

/-- C16, the code at a failing input: `fc12:3456::1` lies in `fc00::/8` (first byte
`0xfc`), `wg0` matches no CJDNS pattern, and the interface carrying that address is not
classified as CJDNS. -/
theorem cjdns_misses_fc12 :
    ip_fc12_3456_1.length = 16 ∧ ip_fc12_3456_1.getD 0 0 = 0xfc ∧
    IP.To4 ip_fc12_3456_1 = none ∧
    IP.String ip_fc12_3456_1 = "fc12:3456::1" ∧
    (¬ ∃ pattern ∈ cjdnsPatterns, pattern.data <:+: (ToLower id "wg0").data) ∧
    isCJDNSInterface (constPlatform [.IPNet ip_fc12_3456_1 mask64])
      (some (mockInterface "wg0")) = (false, none) := by
  decide

/-- C17, the code at two failing inputs: `201::1` (first byte `0x02`) and `300::1`
(first byte `0x03`) lie in `200::/7`, `wg0` matches no Yggdrasil pattern, and the
interface carrying either address is not classified as Yggdrasil. -/
theorem yggdrasil_misses_201_and_300 :
    ip_201_1.length = 16 ∧ ip_201_1.getD 0 0 = 0x02 ∧ IP.To4 ip_201_1 = none ∧
    IP.String ip_201_1 = "201::1" ∧
    ip_300_1.length = 16 ∧ ip_300_1.getD 0 0 = 0x03 ∧ IP.To4 ip_300_1 = none ∧
    IP.String ip_300_1 = "300::1" ∧
    (¬ ∃ pattern ∈ yggdrasilPatterns, pattern.data <:+: (ToLower id "wg0").data) ∧
    isYggdrasilInterface (constPlatform [.IPNet ip_201_1 mask64])
      (some (mockInterface "wg0")) = (false, none) ∧
    isYggdrasilInterface (constPlatform [.IPNet ip_300_1 mask64])
      (some (mockInterface "wg0")) = (false, none) := by
  decide


/-! ## The text of an address without a 4-byte form holds no dot -/

theorem hexDigit_mem (v : Nat) : hexDigit v ∈ "0123456789abcdef".data := by
  unfold hexDigit
  rcases Nat.lt_or_ge v 16 with h | h
  · interval_cases v <;> decide
  · rw [List.getD_eq_default _ _ h]
    decide

theorem hexDigit_ne_dot (v : Nat) : '.' ≠ hexDigit v := by
  intro h
  have hm := hexDigit_mem v
  rw [← h] at hm
  revert hm
  decide

theorem hexLoop_no_dot (i n : Nat) : '.' ∉ hexLoop i n := by
  induction n with
  | zero => simp [hexLoop]
  | succ j ih =>
    rw [hexLoop]
    simp only [List.mem_append, not_or]
    refine ⟨?_, ih⟩
    split
    · simpa using hexDigit_ne_dot _
    · simp

theorem appendHex_no_dot (i : Nat) : '.' ∉ appendHex i := by
  unfold appendHex
  split
  · decide
  · exact hexLoop_no_dot i 8

theorem hexString_no_dot (b : IP) : '.' ∉ hexString b := by
  unfold hexString
  simp only [List.mem_flatMap, List.mem_cons, List.mem_singleton, List.not_mem_nil, or_false,
    not_exists, not_and, not_or]
  intro tn _
  exact ⟨hexDigit_ne_dot _, hexDigit_ne_dot _⟩

theorem printGroups_no_dot (p : IP) (e0 e1 : Int) (fuel i : Nat) :
    '.' ∉ printGroups p e0 e1 fuel i := by
  induction fuel generalizing i with
  | zero => simp [printGroups]
  | succ fuel ih =>
    rw [printGroups]
    split
    · split
      · simp only []
        split
        · decide
        · simp only [List.mem_append, not_or]
          exact ⟨⟨by decide, appendHex_no_dot _⟩, ih _⟩
      · simp only [List.mem_append, not_or]
        refine ⟨⟨?_, appendHex_no_dot _⟩, ih _⟩
        split
        · decide
        · simp
    · simp

theorem String_no_dot_of_To4_none (ip : IP) (h : IP.To4 ip = none) :
    '.' ∉ (IP.String ip).data := by
  unfold IP.String
  split
  · decide
  · rw [h]
    simp only []
    split
    · simp only [List.mem_cons, not_or]
      exact ⟨by decide, hexString_no_dot ip⟩
    · exact printGroups_no_dot _ _ _ _ _

theorem dot_mem_of_prefix (P l X : List Char) (h : P <+: l ++ '.' :: X)
    (hlen : l.length < P.length) : '.' ∈ P := by
  induction l generalizing P with
  | nil =>
    cases P with
    | nil => simp at hlen
    | cons c cs =>
      rw [List.nil_append, List.cons_prefix_cons] at h
      rw [h.1]
      exact List.mem_cons_self _ _
  | cons a as ih =>
    cases P with
    | nil => simp at hlen
    | cons c cs =>
      rw [List.cons_append, List.cons_prefix_cons] at h
      exact List.mem_cons_of_mem _ (ih cs h.2 (by simpa using hlen))

theorem prefix_shape (P : Provider) :
    ∀ pfx ∈ P.prefixes,
      (P.wantsIPv4 = true → '.' ∈ pfx.data) ∧
      (P.wantsIPv4 = false → '.' ∉ pfx.data ∧ 3 < pfx.data.length) := by
  cases P <;> decide

theorem family_of_prefix (P : Provider) (ip : IP) (pfx : String) (hmem : pfx ∈ P.prefixes)
    (hp : pfx.data <+: (IP.String ip).data) : isIPv4 ip = P.wantsIPv4 := by
  have hshape := prefix_shape P pfx hmem
  cases hT : IP.To4 ip with
  | none =>
    have hnodot := String_no_dot_of_To4_none ip hT
    cases hw : P.wantsIPv4 with
    | false => simp [isIPv4, hT]
    | true => exact absurd (hp.subset (hshape.1 hw)) hnodot
  | some p4 =>
    cases hw : P.wantsIPv4 with
    | true => simp [isIPv4, hT]
    | false =>
      have hs := String_of_To4_some ip p4 hT
      rw [hs] at hp
      have hdot := dot_mem_of_prefix _ _ _ hp
        (Nat.lt_of_le_of_lt (ubtoa_length_le _) (hshape.2 hw).2)
      exact absurd hdot (hshape.2 hw).1

theorem gate_absorbed (P : Provider) (ip : IP) :
    ((isIPv4 ip == P.wantsIPv4) &&
        P.prefixes.any (fun pfx => HasPrefix (IP.String ip) pfx)) =
      P.prefixes.any (fun pfx => HasPrefix (IP.String ip) pfx) := by
  cases hany : P.prefixes.any (fun pfx => HasPrefix (IP.String ip) pfx) with
  | false => simp
  | true =>
    obtain ⟨pfx, hmem, hp⟩ := List.any_eq_true.mp hany
    have hfam := family_of_prefix P ip pfx hmem ((HasPrefix_iff _ _).mp hp)
    simp [hfam]

theorem isInterfaceUngated_some (P : Provider) (pf : Platform) (ifc : Interface) :
    isInterfaceUngated P pf (some ifc) =
      if nameHit P pf ifc then (true, none)
      else
        match pf.Addrs ifc with
        | .error err => (false, some (addrsError ifc err))
        | .ok addrs => (addrs.any (addrHit P), none) := by
  simp only [isInterfaceUngated, nameHit, addrsError]
  split
  · rfl
  · cases hA : pf.Addrs ifc with
    | error err => rfl
    | ok addrs =>
      simp only []
      apply any_pair_eq
      intro a
      cases a with
      | IPNet ip mask => simp only [addrHit, gate_absorbed]
      | IPAddr ip zone => rfl

theorem isInterface_eq_ungated (P : Provider) (pf : Platform) (iface : Option Interface) :
    P.isInterface pf iface = isInterfaceUngated P pf iface := by
  cases iface with
  | none => rw [isInterface_none]; rfl
  | some ifc => rw [isInterface_some, isInterfaceUngated_some]

/-- C18: the family test of the address loop is redundant. For every provider and
every address the gated test (family and text prefix) equals the text prefix test
alone: the text of an address with a 4-byte form never starts with `fc00:` or `200:`,
the text of an address without one never starts with any of the six IPv4 prefixes, and
so each classification function equals the one with the family test taken out. -/
theorem family_gate_redundant (P : Provider) (ip : IP) :
    (((isIPv4 ip == P.wantsIPv4) &&
        P.prefixes.any (fun pfx => HasPrefix (IP.String ip) pfx)) =
      P.prefixes.any (fun pfx => HasPrefix (IP.String ip) pfx)) ∧
    (IP.To4 ip ≠ none →
      HasPrefix (IP.String ip) "fc00:" = false ∧ HasPrefix (IP.String ip) "200:" = false) ∧
    (IP.To4 ip = none →
      ∀ pfx ∈ ["10.4.", "10.30.", "172.16.", "10.64.", "10.2.", "100."],
        HasPrefix (IP.String ip) pfx = false) ∧
    (∀ pf iface, P.isInterface pf iface = isInterfaceUngated P pf iface) := by
  refine ⟨gate_absorbed P ip, ?_, ?_, isInterface_eq_ungated P⟩
  · intro hT
    have h4 : isIPv4 ip = true := by
      cases h : IP.To4 ip with
      | none => exact absurd h hT
      | some p4 => simp [isIPv4, h]
    constructor
    · cases h : HasPrefix (IP.String ip) "fc00:" with
      | false => rfl
      | true =>
        have := family_of_prefix .CJDNS ip "fc00:" (by decide) ((HasPrefix_iff _ _).mp h)
        rw [h4] at this
        exact absurd this (by decide)
    · cases h : HasPrefix (IP.String ip) "200:" with
      | false => rfl
      | true =>
        have := family_of_prefix .Yggdrasil ip "200:" (by decide) ((HasPrefix_iff _ _).mp h)
        rw [h4] at this
        exact absurd this (by decide)
  · intro hT pfx hmem
    have hdot : '.' ∈ pfx.data := by
      revert pfx
      decide
    cases h : HasPrefix (IP.String ip) pfx with
    | false => rfl
    | true =>
      exact absurd (((HasPrefix_iff _ _).mp h).subset hdot) (String_no_dot_of_To4_none ip hT)

/-- Witness: the text of `100.64.0.3` starts with neither IPv6 prefix, and the text of
`fc00::1` starts with none of the six IPv4 prefixes. -/
theorem family_gate_redundant_witness :
    (HasPrefix (IP.String ip_100_64_0_3) "fc00:" = false ∧
      HasPrefix (IP.String ip_100_64_0_3) "200:" = false) ∧
    (∀ pfx ∈ ["10.4.", "10.30.", "172.16.", "10.64.", "10.2.", "100."],
      HasPrefix (IP.String ip_fc00_1) pfx = false) :=
  ⟨(family_gate_redundant .CJDNS ip_100_64_0_3).2.1 (by decide),
   (family_gate_redundant .Tailscale ip_fc00_1).2.2.1 (by decide)⟩

/-! ## The address rules of different providers never overlap -/

theorem prefixes_incomparable (P Q : Provider) :
    ∀ p ∈ P.prefixes, ∀ q ∈ Q.prefixes, p.data <+: q.data → P = Q := by
  cases P <;> cases Q <;> decide

theorem provider_of_prefix (P Q : Provider) (s : List Char)
    (hP : ∃ pfx ∈ P.prefixes, pfx.data <+: s) (hQ : ∃ pfx ∈ Q.prefixes, pfx.data <+: s) :
    P = Q := by
  obtain ⟨p, hp, hps⟩ := hP
  obtain ⟨q, hq, hqs⟩ := hQ
  rcases List.prefix_or_prefix_of_prefix hps hqs with h | h
  · exact prefixes_incomparable P Q p hp q hq h
  · exact (prefixes_incomparable Q P q hq p hp h).symm

/-- C19: the address rules of the seven providers are mutually exclusive. An address
that passes the address test (family and text prefix) of two providers passes it for
one and the same provider; so an interface classified as two different providers
matches one of them by name or carries two different addresses, one for each. -/
theorem address_rules_exclusive (P Q : Provider) :
    (∀ ip : IP,
      (isIPv4 ip = P.wantsIPv4 ∧ ∃ pfx ∈ P.prefixes, pfx.data <+: (IP.String ip).data) →
      (isIPv4 ip = Q.wantsIPv4 ∧ ∃ pfx ∈ Q.prefixes, pfx.data <+: (IP.String ip).data) →
      P = Q) ∧
    (∀ (pf : Platform) (ifc : Interface), P ≠ Q →
      (P.isInterface pf (some ifc)).1 = true → (Q.isInterface pf (some ifc)).1 = true →
      (∃ pattern ∈ P.patterns,
        pattern.data <:+: (ToLower pf.unicodeToLower ifc.Name).data) ∨
      (∃ pattern ∈ Q.patterns,
        pattern.data <:+: (ToLower pf.unicodeToLower ifc.Name).data) ∨
      ∃ addrs, pf.Addrs ifc = .ok addrs ∧
        ∃ ip1 mask1 ip2 mask2, Addr.IPNet ip1 mask1 ∈ addrs ∧ Addr.IPNet ip2 mask2 ∈ addrs ∧
          ip1 ≠ ip2 ∧
          (isIPv4 ip1 = P.wantsIPv4 ∧
            ∃ pfx ∈ P.prefixes, pfx.data <+: (IP.String ip1).data) ∧
          (isIPv4 ip2 = Q.wantsIPv4 ∧
            ∃ pfx ∈ Q.prefixes, pfx.data <+: (IP.String ip2).data)) := by
  have hexcl : ∀ ip : IP,
      (isIPv4 ip = P.wantsIPv4 ∧ ∃ pfx ∈ P.prefixes, pfx.data <+: (IP.String ip).data) →
      (isIPv4 ip = Q.wantsIPv4 ∧ ∃ pfx ∈ Q.prefixes, pfx.data <+: (IP.String ip).data) →
      P = Q := fun ip hP hQ => provider_of_prefix P Q _ hP.2 hQ.2
  refine ⟨hexcl, ?_⟩
  intro pf ifc hne hPc hQc
  by_cases hnP : nameHit P pf ifc = true
  · exact Or.inl ((nameHit_iff P pf ifc).mp hnP)
  by_cases hnQ : nameHit Q pf ifc = true
  · exact Or.inr (Or.inl ((nameHit_iff Q pf ifc).mp hnQ))
  right; right
  rw [isInterface_some, if_neg hnP] at hPc
  rw [isInterface_some, if_neg hnQ] at hQc
  cases hA : pf.Addrs ifc with
  | error err =>
    rw [hA] at hPc
    exact absurd hPc (by simp)
  | ok addrs =>
    rw [hA] at hPc hQc
    obtain ⟨ip1, mask1, hm1, hh1⟩ := (any_addrHit_iff P addrs).mp hPc
    obtain ⟨ip2, mask2, hm2, hh2⟩ := (any_addrHit_iff Q addrs).mp hQc
    refine ⟨addrs, rfl, ip1, mask1, ip2, mask2, hm1, hm2, ?_, hh1, hh2⟩
    intro heq
    subst heq
    exact hne (hexcl ip1 hh1 hh2)

/-- Witness: the address `100.64.0.3` passes the Tailscale address test, and so fails
the Mullvad one. -/
theorem address_rules_exclusive_witness :
    (isIPv4 ip_100_64_0_3 = true ∧
      ∃ pfx ∈ [TailscaleIPPrefix], pfx.data <+: (IP.String ip_100_64_0_3).data) ∧
    ¬ (isIPv4 ip_100_64_0_3 = true ∧
      ∃ pfx ∈ [MullvadIPPrefix], pfx.data <+: (IP.String ip_100_64_0_3).data) :=
  ⟨⟨by decide, "100.", by decide, by decide⟩,
   fun h => absurd ((address_rules_exclusive .Tailscale .Mullvad).1 ip_100_64_0_3
     ⟨by decide, "100.", by decide, by decide⟩ h) (by decide)⟩

end Netdetect
